import Mathlib

/-!
Shallow embedding of the practice11_backend Shop API (Express + MongoDB
route handlers) and proofs about its specified behaviour.

The repository consists of five near-duplicate revisions of the same
service:
  * src/app.js            — products CRUD with typed validation on POST
  * src/unnamed/part_000  — same plus PUT with per-field validation
  * src/unnamed/part_001  — products CRUD (truthiness-only validation)
                            plus user-profile items
  * src/unnamed/part_002  — two revisions in one file: items CRUD, and a
                            final revision with an x-api-key gate on item
                            mutations and with no try/catch on most handlers
  * src/unnamed/part_003  — same products handlers as app.js

JavaScript runtime values are embedded as JsValue (undefined, null,
booleans, numbers including NaN and the infinities, strings); machine
behaviour that the handlers rely on — truthiness, typeof checks,
String.prototype.trim, String.prototype.split, Number(), <, >= — is
embedded explicitly below.  The MongoDB collection is embedded as a pure
list of records, and each handler is a pure function from its inputs and
the store to a result recording the HTTP status, the number of store
invocations, and the resulting store.
-/

/-- A JavaScript number: NaN, the two infinities, or a finite rational. -/
inductive JsNum where
  | nan : JsNum
  | posInf : JsNum
  | negInf : JsNum
  | fin : ℚ → JsNum
deriving DecidableEq, Repr

/-- JavaScript strict less-than on numbers: any comparison with NaN is false. -/
def jsNumLt : JsNum → JsNum → Bool
  | JsNum.nan, _ => false
  | _, JsNum.nan => false
  | JsNum.negInf, JsNum.negInf => false
  | JsNum.negInf, _ => true
  | _, JsNum.negInf => false
  | JsNum.posInf, _ => false
  | JsNum.fin _, JsNum.posInf => true
  | JsNum.fin a, JsNum.fin b => decide (a < b)

/-- JavaScript greater-or-equal on numbers: any comparison with NaN is false. -/
def jsNumGe : JsNum → JsNum → Bool
  | JsNum.nan, _ => false
  | _, JsNum.nan => false
  | JsNum.posInf, _ => true
  | _, JsNum.posInf => false
  | _, JsNum.negInf => true
  | JsNum.negInf, _ => false
  | JsNum.fin a, JsNum.fin b => decide (b ≤ a)

/-- MongoDB ascending sort order on numbers: NaN sorts below every other
number, then -Infinity, finite values, +Infinity. -/
def mongoLe : JsNum → JsNum → Bool
  | JsNum.nan, _ => true
  | _, JsNum.nan => false
  | JsNum.negInf, _ => true
  | _, JsNum.negInf => false
  | JsNum.fin a, JsNum.fin b => decide (a ≤ b)
  | JsNum.fin _, JsNum.posInf => true
  | JsNum.posInf, JsNum.posInf => true
  | JsNum.posInf, JsNum.fin _ => false

/-- A JavaScript value as it can appear in a JSON request body. -/
inductive JsValue where
  | undef : JsValue
  | null : JsValue
  | bool : Bool → JsValue
  | num : JsNum → JsValue
  | str : String → JsValue
deriving DecidableEq, Repr

/-- JavaScript truthiness: undefined, null, false, NaN, 0 and "" are falsy. -/
def truthy : JsValue → Bool
  | JsValue.undef => false
  | JsValue.null => false
  | JsValue.bool b => b
  | JsValue.num JsNum.nan => false
  | JsValue.num (JsNum.fin q) => decide (q ≠ 0)
  | JsValue.num _ => true
  | JsValue.str s => decide (s ≠ "")

/-- typeof v === "string". -/
def isString : JsValue → Bool
  | JsValue.str _ => true
  | _ => false

/-- typeof v === "number". -/
def isNumber : JsValue → Bool
  | JsValue.num _ => true
  | _ => false

/-- The whitespace characters relevant to the strings this service handles. -/
def isWs (c : Char) : Bool :=
  c = ' ' || c = '\t' || c = '\n' || c = '\r'

/-- String.prototype.trim: strip leading and trailing whitespace. -/
def trimStr (s : String) : String :=
  String.mk (((s.toList.dropWhile isWs).reverse.dropWhile isWs).reverse)

/-- String.prototype.trim applied to a JsValue: throws (none) off strings. -/
def jsTrim : JsValue → Option String
  | JsValue.str s => some (trimStr s)
  | _ => none

/-- Helper for splitCommaStr: accumulate characters until a comma. -/
def splitCommaAux : List Char → List Char → List String
  | [], acc => [String.mk acc.reverse]
  | c :: rest, acc =>
      if c = ',' then String.mk acc.reverse :: splitCommaAux rest []
      else splitCommaAux rest (c :: acc)

/-- String.prototype.split(",") on a string. -/
def splitCommaStr (s : String) : List String :=
  splitCommaAux s.toList []

/-- Value of a decimal digit character. -/
def digVal (c : Char) : ℕ := c.toNat - 48

/-- Value of a list of decimal digit characters. -/
def digitsVal (cs : List Char) : ℕ :=
  cs.foldl (fun acc c => acc * 10 + digVal c) 0

/-- Parse an unsigned decimal literal (digits, optionally a dot and more
digits, at least one digit overall) as a rational. -/
def parseUnsignedDec (cs : List Char) : Option ℚ :=
  let ip := cs.takeWhile Char.isDigit
  let rest := cs.dropWhile Char.isDigit
  match rest with
  | [] => if ip.isEmpty then none else some (digitsVal ip)
  | '.' :: fp =>
      if fp.all Char.isDigit && !(ip.isEmpty && fp.isEmpty) then
        some ((digitsVal ip : ℚ) + (digitsVal fp : ℚ) / ((10 : ℚ) ^ fp.length))
      else none
  | _ => none

/-- JavaScript Number() applied to a string: the empty (or all-whitespace)
string converts to 0, decimal literals with an optional sign convert to
their value, Infinity is recognized, and anything else is NaN. -/
def toNumber (s : String) : JsNum :=
  let t := trimStr s
  if t = "" then JsNum.fin 0
  else if t = "Infinity" || t = "+Infinity" then JsNum.posInf
  else if t = "-Infinity" then JsNum.negInf
  else
    match t.toList with
    | '-' :: rest =>
        match parseUnsignedDec rest with
        | some q => JsNum.fin (-q)
        | none => JsNum.nan
    | '+' :: rest =>
        match parseUnsignedDec rest with
        | some q => JsNum.fin q
        | none => JsNum.nan
    | cs =>
        match parseUnsignedDec cs with
        | some q => JsNum.fin q
        | none => JsNum.nan

/-- ObjectId.isValid on a URL path segment: a 24-character hex string. -/
def isValidObjectId (s : String) : Bool :=
  s.length = 24 && s.toList.all (fun c => c.isDigit || ('a' ≤ c && c ≤ 'f') || ('A' ≤ c && c ≤ 'F'))

example : truthy (JsValue.str "0") = true := by decide
example : truthy (JsValue.str "") = false := by decide
example : trimStr "  a b  " = "a b" := by decide
example : splitCommaStr "name,price" = ["name", "price"] := by decide
example : splitCommaStr "name," = ["name", ""] := by decide
example : toNumber "0" = JsNum.fin 0 := by decide
example : toNumber "10" = JsNum.fin 10 := by decide
example : toNumber "-3" = JsNum.fin (-3) := by decide
example : toNumber "abc" = JsNum.nan := by decide
example : toNumber "" = JsNum.fin 0 := by decide
example : isValidObjectId "0123456789abcdef01234567" = true := by decide
example : isValidObjectId "abc" = false := by decide

/-!
## GET /api/products — query translation (src/app.js lines 69-110,
src/unnamed/part_003 lines 75-116)

The handler destructures `category`, `minPrice`, `sort`, `fields` from
`req.query` (each is a string when present, undefined when absent),
builds a filter, a sort option and a projection by truthiness tests, and
runs `find(filter, { projection }).sort(sortOption)` against the
products collection, answering `{ count, products }`.
-/

/-- A stored product record (shape written by the create handlers:
name, price, category, createdAt, plus the store identifier). -/
structure Product where
  id : String
  name : String
  price : JsNum
  category : String
  createdAt : ℕ
deriving DecidableEq, Repr

/-- The recognized query-string parameters of GET /api/products; a field
is none when the parameter is absent from the URL. -/
structure Query where
  category : Option String
  minPrice : Option String
  sort : Option String
  fields : Option String
deriving DecidableEq, Repr

/-- Truthiness of a destructured query parameter: absent is undefined
(falsy); a present parameter is its string value. -/
def qTruthy : Option String → Bool
  | none => false
  | some s => decide (s ≠ "")

/-- The filter document built by the handler. -/
structure QFilter where
  category : Option String
  priceGte : Option JsNum
deriving DecidableEq, Repr

/-- `const filter = {}; if (category) filter.category = category;
if (minPrice) filter.price = { $gte: Number(minPrice) };` -/
def buildFilter (q : Query) : QFilter :=
  { category := match q.category with
      | some c => if c = "" then none else some c
      | none => none
    priceGte := match q.minPrice with
      | some m => if m = "" then none else some (toNumber m)
      | none => none }

/-- `let sortOption = {}; if (sort === "price") sortOption.price = 1;`
true when the results are to be sorted ascending by price. -/
def buildSortByPrice (q : Query) : Bool :=
  q.sort = some "price"

/-- `let projection = {}; if (fields) fields.split(",").forEach(f =>
projection[f] = 1);` — none models the empty projection document. -/
def buildProjection (q : Query) : Option (List String) :=
  match q.fields with
  | some f => if f = "" then none else some (splitCommaStr f)
  | none => none

/-- Whether a stored record matches the filter document, per the store
contract (§6): an exact category match and a price >= comparison.  A
price bound of NaN matches nothing (IEEE comparison semantics). -/
def matchesFilter (f : QFilter) (p : Product) : Bool :=
  (match f.category with
   | none => true
   | some c => decide (p.category = c))
  && (match f.priceGte with
      | none => true
      | some n => jsNumGe p.price n)

/-- The full field list of a stored product record, in storage order. -/
def fullFields (p : Product) : List (String × JsValue) :=
  [("name", JsValue.str p.name),
   ("price", JsValue.num p.price),
   ("category", JsValue.str p.category),
   ("createdAt", JsValue.num (JsNum.fin p.createdAt))]

/-- A record as returned by a find with an inclusion projection: the
identifier is always kept (store convention), the other fields are kept
exactly when the projection document names them. -/
structure RespDoc where
  id : String
  fields : List (String × JsValue)
deriving DecidableEq, Repr

/-- Apply the projection document to a stored record. -/
def projectDoc (proj : Option (List String)) (p : Product) : RespDoc :=
  { id := p.id
    fields := match proj with
      | none => fullFields p
      | some names => (fullFields p).filter (fun kv => names.contains kv.1) }

/-- Ascending-by-price order used by the store for `sort({ price: 1 })`. -/
def priceLe (a b : Product) : Prop :=
  mongoLe a.price b.price = true

instance : DecidableRel priceLe := fun a b =>
  inferInstanceAs (Decidable (mongoLe a.price b.price = true))

/-- The `{ count, products }` body answered by GET /api/products. -/
structure ListResp where
  count : ℕ
  products : List RespDoc
deriving DecidableEq, Repr

/-- The GET /api/products handler of src/app.js (and part_003) on a
successful store read: filter, then sort (the store's ascending sort is
modelled by insertion sort on the price key), then project, and answer
the documents together with their count. -/
def listProductsApp (q : Query) (store : List Product) : ListResp :=
  let flt := store.filter (fun p => matchesFilter (buildFilter q) p)
  let srt := if buildSortByPrice q then List.insertionSort priceLe flt else flt
  let docs := srt.map (projectDoc (buildProjection q))
  { count := docs.length, products := docs }

/-- mongoLe is total. -/
theorem mongoLe_total (x y : JsNum) : mongoLe x y = true ∨ mongoLe y x = true := by
  cases x <;> cases y <;> simp [mongoLe]
  exact le_total _ _

/-- mongoLe is transitive. -/
theorem mongoLe_trans {x y z : JsNum} (h1 : mongoLe x y = true)
    (h2 : mongoLe y z = true) : mongoLe x z = true := by
  cases x <;> cases y <;> cases z <;> simp_all [mongoLe]
  exact le_trans h1 h2

instance : IsTotal Product priceLe :=
  ⟨fun a b => mongoLe_total a.price b.price⟩

instance : IsTrans Product priceLe :=
  ⟨fun _ _ _ h1 h2 => mongoLe_trans h1 h2⟩


/-- The filter built by the handler matches a record exactly when every
parameter that was supplied with a non-empty value imposes its
constraint: exact category equality and price >= numeric(value). -/
theorem matchesFilter_buildFilter_iff (q : Query) (p : Product) :
    matchesFilter (buildFilter q) p = true ↔
      ((∀ c, q.category = some c → c ≠ "" → p.category = c)
       ∧ (∀ m, q.minPrice = some m → m ≠ "" → jsNumGe p.price (toNumber m) = true)) := by
  unfold matchesFilter buildFilter
  rcases hc : q.category with _ | c <;> rcases hm : q.minPrice with _ | m
  · simp
  · by_cases hme : m = "" <;> simp [hme]
  · by_cases hce : c = "" <;> simp [hce]
  · by_cases hce : c = "" <;> by_cases hme : m = "" <;> simp [hce, hme]

/-- With a projection document present, a returned record keeps the
identifier plus exactly the fields named in the comma-separated list. -/
theorem projectDoc_fields_supplied (q : Query) (f : String) (hf : q.fields = some f)
    (hne : f ≠ "") (p : Product) :
    projectDoc (buildProjection q) p
      = { id := p.id
          fields := (fullFields p).filter (fun kv => (splitCommaStr f).contains kv.1) } := by
  unfold projectDoc buildProjection
  rw [hf]
  simp [hne]

/-- With no (or an empty) fields parameter the full record is returned. -/
theorem projectDoc_fields_absent (q : Query) (hf : q.fields = none ∨ q.fields = some "")
    (p : Product) :
    projectDoc (buildProjection q) p = { id := p.id, fields := fullFields p } := by
  unfold projectDoc buildProjection
  rcases hf with hf | hf
  · rw [hf]
  · rw [hf]
    simp

/-- C1 (amended).  The GET /api/products query translation, as implemented:
a parameter supplied with a NON-EMPTY value imposes its constraint
(category: exact equality; minPrice: price >= numeric(value)); `sort=price`
orders the matching records ascending by price and any other value leaves
them in natural (store) order; a non-empty `fields` value restricts each
returned record to exactly the comma-separated field names plus the
identifier; an absent parameter — and likewise one supplied with the
empty string, which the handler's truthiness test conflates with absence —
imposes no constraint. -/
theorem products_query_translation (q : Query) (store : List Product) :
    ((listProductsApp q store).count = (listProductsApp q store).products.length)
    ∧ (∀ p, matchesFilter (buildFilter q) p = true ↔
        ((∀ c, q.category = some c → c ≠ "" → p.category = c)
         ∧ (∀ m, q.minPrice = some m → m ≠ "" → jsNumGe p.price (toNumber m) = true)))
    ∧ (∃ pre : List Product,
        pre.Perm (store.filter (fun p => matchesFilter (buildFilter q) p))
        ∧ (q.sort = some "price" → pre.Sorted priceLe)
        ∧ (q.sort ≠ some "price" → pre = store.filter (fun p => matchesFilter (buildFilter q) p))
        ∧ (listProductsApp q store).products = pre.map (projectDoc (buildProjection q)))
    ∧ (∀ f, q.fields = some f → f ≠ "" → ∀ p : Product,
        projectDoc (buildProjection q) p
          = { id := p.id
              fields := (fullFields p).filter (fun kv => (splitCommaStr f).contains kv.1) })
    ∧ ((q.fields = none ∨ q.fields = some "") → ∀ p : Product,
        projectDoc (buildProjection q) p = { id := p.id, fields := fullFields p }) := by
  refine ⟨rfl, fun p => matchesFilter_buildFilter_iff q p, ?_,
    fun f hf hne p => projectDoc_fields_supplied q f hf hne p,
    fun hf p => projectDoc_fields_absent q hf p⟩
  by_cases hs : q.sort = some "price"
  · refine ⟨List.insertionSort priceLe
      (store.filter (fun p => matchesFilter (buildFilter q) p)), ?_, ?_, ?_, ?_⟩
    · exact List.perm_insertionSort priceLe _
    · intro _
      exact List.sorted_insertionSort priceLe _
    · intro hns
      exact absurd hs hns
    · simp [listProductsApp, buildSortByPrice, hs]
  · refine ⟨store.filter (fun p => matchesFilter (buildFilter q) p),
      List.Perm.refl _, fun hps => absurd hps hs, fun _ => rfl, ?_⟩
    simp [listProductsApp, buildSortByPrice, hs]

/-- C1 witness: on the query `?category=A&minPrice=10&sort=price&fields=name`
the projection clause of the translation theorem instantiates to the
concrete record restricted to its name and identifier. -/
theorem products_query_translation_witness :
    projectDoc
        (buildProjection
          { category := some "A", minPrice := some "10",
            sort := some "price", fields := some "name" })
        { id := "a", name := "Pen", price := JsNum.fin 5, category := "A", createdAt := 0 }
      = { id := "a", fields := [("name", JsValue.str "Pen")] } :=
  ((products_query_translation
      { category := some "A", minPrice := some "10",
        sort := some "price", fields := some "name" }
      [{ id := "a", name := "Pen", price := JsNum.fin 5, category := "A", createdAt := 0 }]).2.2.2.1
    "name" rfl (by decide)
    { id := "a", name := "Pen", price := JsNum.fin 5, category := "A", createdAt := 0 }).trans
    (by decide)

/-- C1 counterexample: the claim as stated says that whenever `category`
is supplied the filter requires result.category to equal the supplied
value exactly; but a request with `category=` (supplied, empty value) is
answered with a record whose category is "A" ≠ "", because the handler
tests presence by truthiness and builds no filter for the empty string. -/
theorem products_query_category_supplied_counterexample :
    (listProductsApp
        { category := some "", minPrice := none, sort := none, fields := none }
        [{ id := "a", name := "Pen", price := JsNum.fin 5, category := "A", createdAt := 0 }]).products
      = [{ id := "a"
           fields := [("name", JsValue.str "Pen"), ("price", JsValue.num (JsNum.fin 5)),
                      ("category", JsValue.str "A"), ("createdAt", JsValue.num (JsNum.fin 0))] }]
    ∧ ("A" : String) ≠ "" := by
  constructor
  · decide
  · decide

/-- C9 counterexample: the claim says `minPrice=0` applies no price
filter; but the string "0" is truthy, so the handler does install the
filter price >= 0, and observably so: a stored record whose price is NaN
(storable through the part_000 create, which omits the NaN check) is
returned without the parameter and filtered out with `minPrice=0`. -/
theorem minPrice_zero_filter_counterexample :
    (buildFilter { category := none, minPrice := some "0", sort := none, fields := none }).priceGte
      = some (JsNum.fin 0)
    ∧ (listProductsApp
        { category := none, minPrice := some "0", sort := none, fields := none }
        [{ id := "b", name := "X", price := JsNum.nan, category := "A", createdAt := 0 }]).products
      = []
    ∧ (listProductsApp
        { category := none, minPrice := none, sort := none, fields := none }
        [{ id := "b", name := "X", price := JsNum.nan, category := "A", createdAt := 0 }]).products
      = [{ id := "b"
           fields := [("name", JsValue.str "X"), ("price", JsValue.num JsNum.nan),
                      ("category", JsValue.str "A"), ("createdAt", JsValue.num (JsNum.fin 0))] }] := by
  refine ⟨by decide, by decide, by decide⟩

/-- C9 (amended).  Parameter presence is tested by string truthiness, and
the empty string is the only falsy string: a parameter supplied with the
empty value is treated exactly as if it were absent (`category=` applies
no category filter, `minPrice=` applies no price filter, `fields=`
applies no projection), whereas `minPrice=0` has the truthy value "0"
and installs the filter price >= 0. -/
theorem query_param_truthiness (q : Query) (store : List Product) :
    (qTruthy (some "") = false ∧ ∀ s, s ≠ "" → qTruthy (some s) = true)
    ∧ (q.category = some "" →
        listProductsApp q store
          = listProductsApp { q with category := none } store)
    ∧ (q.minPrice = some "" →
        listProductsApp q store
          = listProductsApp { q with minPrice := none } store)
    ∧ (q.fields = some "" →
        listProductsApp q store
          = listProductsApp { q with fields := none } store)
    ∧ (q.minPrice = some "0" → (buildFilter q).priceGte = some (JsNum.fin 0)) := by
  refine ⟨⟨by decide, fun s hs => by simp [qTruthy, hs]⟩, ?_, ?_, ?_, ?_⟩
  · intro hc
    have hbf : buildFilter q = buildFilter { q with category := none } := by
      unfold buildFilter
      rw [hc]
      simp
    simp [listProductsApp, hbf, buildSortByPrice, buildProjection]
  · intro hm
    have hbf : buildFilter q = buildFilter { q with minPrice := none } := by
      unfold buildFilter
      rw [hm]
      simp
    simp [listProductsApp, hbf, buildSortByPrice, buildProjection]
  · intro hf
    have hbp : buildProjection q = buildProjection { q with fields := none } := by
      unfold buildProjection
      rw [hf]
      simp
    simp [listProductsApp, hbp, buildSortByPrice, buildFilter]
  · intro hm
    have h0 : toNumber "0" = JsNum.fin 0 := by decide
    unfold buildFilter
    rw [hm]
    simp [h0]

/-- C9 witness: at the concrete query `?minPrice=` over a one-record
store, the empty parameter leaves the listing identical to the
parameterless listing. -/
theorem query_param_truthiness_witness :
    listProductsApp
        { category := none, minPrice := some "", sort := none, fields := none }
        [{ id := "a", name := "Pen", price := JsNum.fin 5, category := "A", createdAt := 0 }]
      = listProductsApp
        { category := none, minPrice := none, sort := none, fields := none }
        [{ id := "a", name := "Pen", price := JsNum.fin 5, category := "A", createdAt := 0 }] :=
  (query_param_truthiness
    { category := none, minPrice := some "", sort := none, fields := none }
    [{ id := "a", name := "Pen", price := JsNum.fin 5, category := "A", createdAt := 0 }]).2.2.1 rfl

/-!
## POST /api/products — create validation

src/app.js lines 141-180 and src/unnamed/part_003 lines 147-186 check
truthiness/undefined, then that name and category are strings, then that
price is a number, not NaN and not < 0.  src/unnamed/part_000 lines
115-153 performs the same checks except the NaN test.  src/unnamed/
part_001 lines 94-120 and the first revision of src/unnamed/part_002
lines 113-139 check only truthiness/undefined and then call .trim()
inside the try block (a TypeError there is caught and answered 500).
-/

/-- The destructured `{ name, price, category } = req.body`; a field the
caller did not send is undefined. -/
structure Body where
  name : JsValue
  price : JsValue
  category : JsValue
deriving DecidableEq, Repr

/-- The record handed to insertOne by the typed create handlers. -/
structure NewProduct where
  name : String
  price : JsNum
  category : String
  createdAt : ℕ
deriving DecidableEq, Repr

/-- Outcome of the typed create handlers: a 400 with the handler's
message, or a 201 after insertOne(doc). -/
inductive PostOutcome where
  | badRequest : String → PostOutcome
  | created : NewProduct → PostOutcome
deriving DecidableEq, Repr

/-- POST /api/products of src/app.js (and part_003): truthiness and
undefined checks, string typeof checks, then the number / NaN / negative
checks, in source order; on success insertOne of the trimmed record with
the server-side timestamp. -/
def postProductApp (b : Body) (now : ℕ) : PostOutcome :=
  if !truthy b.name || decide (b.price = JsValue.undef) || !truthy b.category then
    PostOutcome.badRequest "Missing fields: name, price, category"
  else
    match b.name, b.category with
    | JsValue.str n, JsValue.str c =>
        match b.price with
        | JsValue.num p =>
            if decide (p = JsNum.nan) || jsNumLt p (JsNum.fin 0) then
              PostOutcome.badRequest "price must be a non-negative number"
            else
              PostOutcome.created
                { name := trimStr n, price := p, category := trimStr c, createdAt := now }
        | _ => PostOutcome.badRequest "price must be a non-negative number"
    | _, _ => PostOutcome.badRequest "name and category must be strings"

/-- POST /api/products of src/unnamed/part_000: as postProductApp but
with no Number.isNaN check, so a NaN price passes `price < 0 === false`. -/
def postProductPart0 (b : Body) (now : ℕ) : PostOutcome :=
  if !truthy b.name || decide (b.price = JsValue.undef) || !truthy b.category then
    PostOutcome.badRequest "Missing fields: name, price, category"
  else
    match b.name, b.category with
    | JsValue.str n, JsValue.str c =>
        match b.price with
        | JsValue.num p =>
            if jsNumLt p (JsNum.fin 0) then
              PostOutcome.badRequest "price must be a non-negative number"
            else
              PostOutcome.created
                { name := trimStr n, price := p, category := trimStr c, createdAt := now }
        | _ => PostOutcome.badRequest "price must be a non-negative number"
    | _, _ => PostOutcome.badRequest "name and category must be strings"

/-- Outcome of the truthiness-only create handlers of part_001 and the
first part_002 revision: the stored price is whatever value the caller
sent, and a .trim() call on a truthy non-string throws inside the try
block, answered as a 500. -/
inductive PostOutcomeLoose where
  | badRequest : String → PostOutcomeLoose
  | created : String → JsValue → String → ℕ → PostOutcomeLoose
  | serverError : PostOutcomeLoose
deriving DecidableEq, Repr

/-- POST /api/products of src/unnamed/part_001 (and the first revision of
part_002): only the truthiness/undefined check guards the insert. -/
def postProductPart1 (b : Body) (now : ℕ) : PostOutcomeLoose :=
  if !truthy b.name || decide (b.price = JsValue.undef) || !truthy b.category then
    PostOutcomeLoose.badRequest "Missing fields: name, price, category"
  else
    match jsTrim b.name, jsTrim b.category with
    | some n, some c => PostOutcomeLoose.created n b.price c now
    | _, _ => PostOutcomeLoose.serverError

/-- The create-validity condition as the specification states it: name a
non-empty string, price a number >= 0, category a non-empty string. -/
def specCreateOk (b : Body) : Prop :=
  (∃ s, b.name = JsValue.str s ∧ s ≠ "")
  ∧ (∃ p, b.price = JsValue.num p ∧ jsNumGe p (JsNum.fin 0) = true)
  ∧ (∃ s, b.category = JsValue.str s ∧ s ≠ "")

instance (b : Body) : Decidable (specCreateOk b) := by
  unfold specCreateOk
  rcases b with ⟨nm, pr, ct⟩
  cases nm <;> cases pr <;> cases ct <;> simp <;> infer_instance

/-- p >= 0 in JavaScript holds exactly when p is not NaN and p < 0 is
false. -/
theorem jsNumGe_zero_iff (p : JsNum) :
    jsNumGe p (JsNum.fin 0) = true ↔ (p ≠ JsNum.nan ∧ jsNumLt p (JsNum.fin 0) = false) := by
  cases p <;> simp [jsNumGe, jsNumLt]

/-- The app.js create succeeds (reaches insertOne) exactly when the body
satisfies the specified validity condition. -/
theorem postProductApp_created_iff (b : Body) (now : ℕ) :
    (∃ d, postProductApp b now = PostOutcome.created d) ↔ specCreateOk b := by
  rcases b with ⟨nm, pr, ct⟩
  unfold postProductApp specCreateOk
  cases nm <;> cases pr <;> cases ct <;>
    simp [truthy, isString, jsNumGe_zero_iff]
  all_goals try (intro x; split_ifs <;> simp)
  split_ifs with h1 h2 <;> simp_all <;> tauto

/-- On a valid body the app.js create inserts exactly the trimmed record
with the server-side timestamp. -/
theorem postProductApp_created_doc (b : Body) (now : ℕ) (n : String) (p : JsNum)
    (c : String) (hn : b.name = JsValue.str n) (hp : b.price = JsValue.num p)
    (hc : b.category = JsValue.str c) (hok : specCreateOk b) :
    postProductApp b now
      = PostOutcome.created
          { name := trimStr n, price := p, category := trimStr c, createdAt := now } := by
  rcases b with ⟨nm, pr, ct⟩
  cases hn
  cases hp
  cases hc
  rcases hok with ⟨⟨s1, hs1, hne1⟩, ⟨p1, hp1, hge⟩, ⟨s2, hs2, hne2⟩⟩
  cases hs1
  cases hp1
  cases hs2
  rw [jsNumGe_zero_iff] at hge
  unfold postProductApp
  simp [truthy, hne1, hne2, hge.1, hge.2]

/-- C3 (amended).  The create contract as the claim states it holds for
the fully-typed revisions (src/app.js and src/unnamed/part_003): the
insert happens exactly when name is a non-empty string, price a number
>= 0 (NaN, for which >= 0 is false, is rejected) and category a
non-empty string; any violation is answered 400; and a successful create
stores name and category trimmed with a server-side createdAt.  part_000
differs from app.js only on a NaN price, which express.json/JSON.parse
can never deliver, so it satisfies the same contract on reachable
bodies; the reachable failures are part_001 and part_002, which check
only presence/truthiness and so insert, e.g., a negative or string-typed
price. -/
theorem post_create_product_contract (b : Body) (now : ℕ) :
    ((∃ d, postProductApp b now = PostOutcome.created d) ↔ specCreateOk b)
    ∧ (¬ specCreateOk b → ∃ msg, postProductApp b now = PostOutcome.badRequest msg)
    ∧ (∀ n p c, b.name = JsValue.str n → b.price = JsValue.num p →
        b.category = JsValue.str c → specCreateOk b →
        postProductApp b now
          = PostOutcome.created
              { name := trimStr n, price := p, category := trimStr c, createdAt := now }) := by
  refine ⟨postProductApp_created_iff b now, ?_, fun n p c hn hp hc hok =>
    postProductApp_created_doc b now n p c hn hp hc hok⟩
  intro hno
  cases h : postProductApp b now with
  | badRequest m => exact ⟨m, rfl⟩
  | created d => exact absurd ((postProductApp_created_iff b now).mp ⟨d, h⟩) hno

/-- C3 witness: the valid body `{name:" Pen ", price:3, category:"Office"}`
is stored trimmed with the server timestamp. -/
theorem post_create_product_contract_witness :
    postProductApp
        { name := JsValue.str " Pen ", price := JsValue.num (JsNum.fin 3),
          category := JsValue.str "Office" } 7
      = PostOutcome.created
          { name := "Pen", price := JsNum.fin 3, category := "Office", createdAt := 7 } :=
  ((post_create_product_contract
      { name := JsValue.str " Pen ", price := JsValue.num (JsNum.fin 3),
        category := JsValue.str "Office" } 7).2.2
    " Pen " (JsNum.fin 3) "Office" rfl rfl rfl
    ⟨⟨" Pen ", rfl, by decide⟩, ⟨JsNum.fin 3, rfl, by decide⟩,
     ⟨"Office", rfl, by decide⟩⟩).trans (by decide)

/-- C3 counterexample: in src/unnamed/part_001 and the first part_002
revision (both cited by the claim) the create checks only
presence/truthiness, so the JSON body `{name:"A", price:-5,
category:"B"}` — reachable through express.json, and whose price is a
number that is NOT >= 0, so the claim requires a 400 — passes validation
and is inserted with the raw negative price. -/
theorem post_create_product_loose_counterexample :
    postProductPart1
        { name := JsValue.str "A", price := JsValue.num (JsNum.fin (-5)),
          category := JsValue.str "B" } 0
      = PostOutcomeLoose.created "A" (JsValue.num (JsNum.fin (-5))) "B" 0
    ∧ jsNumGe (JsNum.fin (-5)) (JsNum.fin 0) = false := by
  refine ⟨by decide, by decide⟩

/-- The product data-model invariant as the specification states it:
price a non-negative finite number, name and category non-empty after
trimming. -/
def specProductInvariant (d : NewProduct) : Prop :=
  (∃ q : ℚ, d.price = JsNum.fin q ∧ 0 ≤ q)
  ∧ trimStr d.name ≠ ""
  ∧ trimStr d.category ≠ ""

/-- C6 (amended).  A record written through the app.js create has a price
that is a number, not NaN, and not < 0 (Infinity is accepted, so
finiteness is NOT guaranteed), and its name and category are the trimmed
request strings — which may be empty, because a whitespace-only name is
truthy and passes validation.  (The other revisions guarantee less:
part_000 also admits a NaN price, and part_001/part_002 insert the raw
price value unvalidated.) -/
theorem product_write_invariant (b : Body) (now : ℕ) (d : NewProduct)
    (h : postProductApp b now = PostOutcome.created d) :
    d.price ≠ JsNum.nan
    ∧ jsNumLt d.price (JsNum.fin 0) = false
    ∧ (∃ s, b.name = JsValue.str s ∧ d.name = trimStr s)
    ∧ (∃ s, b.category = JsValue.str s ∧ d.category = trimStr s) := by
  rcases b with ⟨nm, pr, ct⟩
  unfold postProductApp at h
  cases nm <;> cases pr <;> cases ct <;> (split_ifs at h <;> simp_all)
  split_ifs at h
  simp_all
  subst h
  simp_all

/-- C6 witness: the valid create of `{name:" Pen ", price:3,
category:"Office"}` stores the trimmed strings and the non-negative,
non-NaN price. -/
theorem product_write_invariant_witness :
    JsNum.fin 3 ≠ JsNum.nan
    ∧ jsNumLt (JsNum.fin 3) (JsNum.fin 0) = false
    ∧ (∃ s, JsValue.str " Pen " = JsValue.str s ∧ "Pen" = trimStr s)
    ∧ (∃ s, JsValue.str "Office" = JsValue.str s ∧ "Office" = trimStr s) :=
  product_write_invariant
    { name := JsValue.str " Pen ", price := JsValue.num (JsNum.fin 3),
      category := JsValue.str "Office" } 7
    { name := "Pen", price := JsNum.fin 3, category := "Office", createdAt := 7 }
    (by decide)

/-- C6 counterexample: the body `{name:" ", price:1, category:"A"}`
passes the app.js create validation (a whitespace-only string is truthy)
and the stored record has name "" — empty after trimming — violating the
claimed data-model invariant. -/
theorem product_invariant_counterexample :
    postProductApp
        { name := JsValue.str " ", price := JsValue.num (JsNum.fin 1),
          category := JsValue.str "A" } 0
      = PostOutcome.created
          { name := "", price := JsNum.fin 1, category := "A", createdAt := 0 }
    ∧ ¬ specProductInvariant
          { name := "", price := JsNum.fin 1, category := "A", createdAt := 0 } := by
  constructor
  · decide
  · intro hinv
    exact hinv.2.1 (by decide)

/-!
## Single-record endpoints, items, the API-key gate, and store errors

Every endpoint that addresses one record first runs ObjectId.isValid on
req.params.id and answers 400 before any store access when it fails.
The final revision of src/unnamed/part_002 (lines 393-613) adds the
checkApiKey middleware in front of the item mutations, drops the
try/catch blocks from most handlers, and drops the deletedCount check
from DELETE /api/items/:id.
-/

/-- Result of a products endpoint addressing a single record: HTTP
status, how many store operations ran, and the store afterwards. -/
structure SingleOut where
  status : ℕ
  storeCalls : ℕ
  store : List Product
deriving DecidableEq, Repr

/-- GET /api/products/:id (src/app.js lines 115-135, identical in every
revision): invalid id → 400 with no store access; findOne, then 404 when
it returns no match, 200 otherwise. -/
def getProductById (id : String) (store : List Product) : SingleOut :=
  if !isValidObjectId id then { status := 400, storeCalls := 0, store := store }
  else
    match store.find? (fun p => p.id = id) with
    | none => { status := 404, storeCalls := 1, store := store }
    | some _ => { status := 200, storeCalls := 1, store := store }

/-- DELETE /api/products/:id (src/app.js lines 183-203, identical in
part_000/part_001/part_002-first/part_003): deleteOne by id, 404 when
deletedCount is 0. -/
def deleteProductById (id : String) (store : List Product) : SingleOut :=
  if !isValidObjectId id then { status := 400, storeCalls := 0, store := store }
  else
    match store.find? (fun p => p.id = id) with
    | none => { status := 404, storeCalls := 1, store := store }
    | some _ =>
        { status := 200, storeCalls := 1,
          store := store.eraseP (fun p => decide (p.id = id)) }

/-- An item document: free-shaped fields under a store identifier. -/
structure Item where
  id : String
  fields : List (String × JsValue)
deriving DecidableEq, Repr

/-- Read a field of a document (first occurrence wins). -/
def getField : List (String × JsValue) → String → Option JsValue
  | [], _ => none
  | kv :: rest, k => if kv.1 = k then some kv.2 else getField rest k

/-- $set of a single field: replace it in place when present, append it
otherwise. -/
def setField : List (String × JsValue) → String → JsValue → List (String × JsValue)
  | [], k, v => [(k, v)]
  | kv :: rest, k, v =>
      if kv.1 = k then (k, v) :: rest else kv :: setField rest k v

/-- $set of an update document: set every field it names, in order. -/
def setFields (fs : List (String × JsValue)) (updates : List (String × JsValue)) :
    List (String × JsValue) :=
  updates.foldl (fun acc kv => setField acc kv.1 kv.2) fs

/-- Result of an items endpoint. -/
structure ItemOut where
  status : ℕ
  storeCalls : ℕ
  store : List Item
deriving DecidableEq, Repr

/-- GET /api/items/:id of the final part_002 revision (lines 511-525):
invalid id → 400 before the store; findOne, 404 on no match. -/
def getItemFinal (id : String) (store : List Item) : ItemOut :=
  if !isValidObjectId id then { status := 400, storeCalls := 0, store := store }
  else
    match store.find? (fun it => it.id = id) with
    | none => { status := 404, storeCalls := 1, store := store }
    | some _ => { status := 200, storeCalls := 1, store := store }

/-- PATCH /api/items/:id of the final part_002 revision (lines 561-576):
after the id check, `updateOne({_id}, { $set: req.body })` — the entire
request body, whatever its fields, with no shape or type validation and
no emptiness check; 404 when matchedCount is 0. -/
def patchItemFinal (id : String) (body : List (String × JsValue)) (store : List Item) :
    ItemOut :=
  if !isValidObjectId id then { status := 400, storeCalls := 0, store := store }
  else
    match store.find? (fun it => it.id = id) with
    | none => { status := 404, storeCalls := 1, store := store }
    | some _ =>
        { status := 200, storeCalls := 1,
          store := store.map (fun it =>
            if it.id = id then { it with fields := setFields it.fields body } else it) }

/-- DELETE /api/items/:id of the final part_002 revision (lines 578-588):
after the id check, deleteOne and answer 204 — the deletedCount is never
inspected. -/
def deleteItemFinal (id : String) (store : List Item) : ItemOut :=
  if !isValidObjectId id then { status := 400, storeCalls := 0, store := store }
  else
    { status := 204, storeCalls := 1,
      store := store.eraseP (fun it => decide (it.id = id)) }

/-- DELETE /api/items/:id of part_001 (lines 323-343) and the first
part_002 revision (lines 326-346): as deleteItemFinal but answering 404
when deletedCount is 0 and 204 on success. -/
def deleteItemChecked (id : String) (store : List Item) : ItemOut :=
  if !isValidObjectId id then { status := 400, storeCalls := 0, store := store }
  else
    match store.find? (fun it => it.id = id) with
    | none => { status := 404, storeCalls := 1, store := store }
    | some _ =>
        { status := 204, storeCalls := 1,
          store := store.eraseP (fun it => decide (it.id = id)) }

/-- The decision of the checkApiKey middleware. -/
inductive GateDecision where
  | unauthenticated : GateDecision
  | forbidden : GateDecision
  | allow : GateDecision
deriving DecidableEq, Repr

/-- checkApiKey (src/unnamed/part_002 lines 28-40 and 419-431): a
truthiness test on req.headers["x-api-key"] — so a missing header and an
empty header value are both 401 — then strict inequality against
process.env.API_KEY (none when the variable is unset; a string header is
never strictly equal to undefined). -/
def checkApiKey (header : Option String) (secret : Option String) : GateDecision :=
  match header with
  | none => GateDecision.unauthenticated
  | some h =>
      if h = "" then GateDecision.unauthenticated
      else if secret = some h then GateDecision.allow
      else GateDecision.forbidden

/-- A protected item route: the middleware answers 401/403 without the
handler (or the store) ever running; on allow the handler's result
stands. -/
def gatedRoute (header secret : Option String) (handler : List Item → ItemOut)
    (store : List Item) : ItemOut :=
  match checkApiKey header secret with
  | GateDecision.unauthenticated => { status := 401, storeCalls := 0, store := store }
  | GateDecision.forbidden => { status := 403, storeCalls := 0, store := store }
  | GateDecision.allow => handler store

/-- What a request produces at the handler boundary: an HTTP response
(status and optional error-body message), or an error that escaped the
async handler because no try/catch surrounds the store call. -/
inductive RouteResult where
  | resp : ℕ → Option String → RouteResult
  | unhandled : RouteResult
deriving DecidableEq, Repr

/-- GET /api/products with its try/catch (present in src/app.js,
part_000, part_001, part_003, the first part_002 revision, and the final
revision lines 460-467): a store failure is caught and answered
500 {error:"Database error"}. -/
def listProductsTry (db : Except Unit (List Product)) : RouteResult :=
  match db with
  | Except.error _ => RouteResult.resp 500 (some "Database error")
  | Except.ok _ => RouteResult.resp 200 none

/-- GET /api/items of the final part_002 revision (lines 506-509): no
try/catch — a store failure rejects the async handler and escapes. -/
def getItemsFinalRoute (db : Except Unit (List Item)) : RouteResult :=
  match db with
  | Except.error _ => RouteResult.unhandled
  | Except.ok _ => RouteResult.resp 200 none

/-- GET /api/products/:id of the final part_002 revision (lines 469-483):
the id check still answers 400 before the store, but a store failure
escapes the handler. -/
def getProductByIdFinalRoute (id : String) (db : Except Unit (Option Product)) :
    RouteResult :=
  if !isValidObjectId id then RouteResult.resp 400 (some "Invalid id")
  else
    match db with
    | Except.error _ => RouteResult.unhandled
    | Except.ok none => RouteResult.resp 404 (some "Product not found")
    | Except.ok (some _) => RouteResult.resp 200 none

/-- C4 (amended).  Every single-record endpoint rejects a syntactically
invalid identifier with 400 before any store access (zero store calls,
store untouched).  With a valid identifier matching no record, the
response comes only after the one store lookup/mutation (one store
call): 404 from GET/DELETE /api/products/:id and GET /api/items/:id —
but the API-key-gated DELETE /api/items/:id of the final revision
answers 204, not 404, because it never inspects deletedCount. -/
theorem identifier_gate (id : String) (store : List Product) (istore : List Item) :
    (isValidObjectId id = false →
        getProductById id store = { status := 400, storeCalls := 0, store := store }
      ∧ deleteProductById id store = { status := 400, storeCalls := 0, store := store }
      ∧ getItemFinal id istore = { status := 400, storeCalls := 0, store := istore }
      ∧ deleteItemFinal id istore = { status := 400, storeCalls := 0, store := istore })
    ∧ (isValidObjectId id = true → store.find? (fun p => p.id = id) = none →
        getProductById id store = { status := 404, storeCalls := 1, store := store }
      ∧ deleteProductById id store = { status := 404, storeCalls := 1, store := store })
    ∧ (isValidObjectId id = true → istore.find? (fun it => it.id = id) = none →
        getItemFinal id istore = { status := 404, storeCalls := 1, store := istore }
      ∧ deleteItemFinal id istore = { status := 204, storeCalls := 1, store := istore }) := by
  refine ⟨fun hinv => ?_, fun hval hnone => ?_, fun hval hnone => ?_⟩
  · simp [getProductById, deleteProductById, getItemFinal, deleteItemFinal, hinv]
  · simp [getProductById, deleteProductById, hval, hnone]
  · have herase : istore.eraseP (fun it => decide (it.id = id)) = istore :=
      List.eraseP_of_forall_not (by
        intro x hx
        simpa using List.find?_eq_none.mp hnone x hx)
    simp [getItemFinal, deleteItemFinal, hval, hnone, herase]

/-- C4 witness: the concrete invalid identifier "abc" is rejected with
400 by GET /api/products/:id with the store untouched, and the valid
identifier of an empty store draws a 404 after one lookup. -/
theorem identifier_gate_witness :
    getProductById "abc" [] = { status := 400, storeCalls := 0, store := [] }
    ∧ getProductById "0123456789abcdef01234567" []
        = { status := 404, storeCalls := 1, store := [] } :=
  ⟨((identifier_gate "abc" [] []).1 (by decide)).1,
   ((identifier_gate "0123456789abcdef01234567" [] []).2.1 (by decide) rfl).1⟩

/-- C4 counterexample: the claim as stated requires 404 whenever a valid
identifier matches no record; but the final revision's gated DELETE
/api/items/:id answers 204 on a store with no matching record. -/
theorem identifier_gate_counterexample :
    deleteItemFinal "0123456789abcdef01234567" []
      = { status := 204, storeCalls := 1, store := [] }
    ∧ (204 : ℕ) ≠ 404 := by
  refine ⟨by decide, by decide⟩

/-- C8 (amended).  Deleting an already-deleted (or never existing)
identifier never answers 500 and never changes the store further; the
products DELETE (all revisions) and the pre-gate items DELETE answer
404, while the final revision's gated items DELETE answers 204
unconditionally. -/
theorem delete_idempotence (id : String) (store : List Product) (istore : List Item)
    (hval : isValidObjectId id = true) :
    (store.find? (fun p => p.id = id) = none →
        deleteProductById id store = { status := 404, storeCalls := 1, store := store }
      ∧ (deleteProductById id store).status ≠ 500)
    ∧ (istore.find? (fun it => it.id = id) = none →
        deleteItemChecked id istore = { status := 404, storeCalls := 1, store := istore }
      ∧ deleteItemFinal id istore = { status := 204, storeCalls := 1, store := istore }
      ∧ (deleteItemFinal id istore).status ≠ 500) := by
  refine ⟨fun hnone => ?_, fun hnone => ?_⟩
  · have h : deleteProductById id store = { status := 404, storeCalls := 1, store := store } := by
      simp [deleteProductById, hval, hnone]
    exact ⟨h, by simp [h]⟩
  · have herase : istore.eraseP (fun it => decide (it.id = id)) = istore :=
      List.eraseP_of_forall_not (by
        intro x hx
        simpa using List.find?_eq_none.mp hnone x hx)
    have h : deleteItemFinal id istore = { status := 204, storeCalls := 1, store := istore } := by
      simp [deleteItemFinal, hval, herase]
    exact ⟨by simp [deleteItemChecked, hval, hnone], h, by simp [h]⟩

/-- C8 witness: deleting the valid identifier of an empty products store
answers 404, one store call, store unchanged, and not 500. -/
theorem delete_idempotence_witness :
    deleteProductById "0123456789abcdef01234567" []
      = { status := 404, storeCalls := 1, store := [] }
    ∧ (deleteProductById "0123456789abcdef01234567" []).status ≠ 500 :=
  (delete_idempotence "0123456789abcdef01234567" [] [] (by decide)).1 rfl

/-- C8 counterexample: deleting the same item twice through the final
revision's gated DELETE /api/items/:id answers 204 the second time — the
claim requires 404 — though it does leave the (already empty) store
unchanged. -/
theorem delete_idempotence_counterexample :
    (deleteItemFinal "0123456789abcdef01234567"
        ((deleteItemFinal "0123456789abcdef01234567"
            [{ id := "0123456789abcdef01234567",
               fields := [("name", JsValue.str "x")] }]).store))
      = { status := 204, storeCalls := 1, store := [] }
    ∧ (204 : ℕ) ≠ 404 := by
  refine ⟨by decide, by decide⟩

/-- C5 (amended).  The API-key gate decides purely from the header value
and the configured secret: a missing header — or one supplied with the
EMPTY value, which the truthiness test conflates with absence — draws
401 without the handler or the store running; a non-empty header
different from the configured secret draws 403 the same way; a non-empty
header equal to the configured secret lets the handler run unchanged. -/
theorem api_key_gate (header secret : Option String) :
    ((header = none ∨ header = some "") → ∀ handler store,
        gatedRoute header secret handler store
          = { status := 401, storeCalls := 0, store := store })
    ∧ (∀ hv, header = some hv → hv ≠ "" → secret ≠ some hv → ∀ handler store,
        gatedRoute header secret handler store
          = { status := 403, storeCalls := 0, store := store })
    ∧ (∀ hv, header = some hv → hv ≠ "" → secret = some hv → ∀ handler store,
        gatedRoute header secret handler store = handler store) := by
  refine ⟨?_, ?_, ?_⟩
  · rintro (h | h) handler store <;> simp [gatedRoute, checkApiKey, h]
  · rintro hv rfl hne hsec handler store
    simp [gatedRoute, checkApiKey, hne, hsec]
  · rintro hv rfl hne hsec handler store
    simp [gatedRoute, checkApiKey, hne, hsec]

/-- C5 witness: with the correct non-empty key the gated PATCH route is
exactly its handler, and with no header it is a 401 that never calls the
store. -/
theorem api_key_gate_witness :
    gatedRoute (some "sekret") (some "sekret")
        (patchItemFinal "0123456789abcdef01234567" []) []
      = patchItemFinal "0123456789abcdef01234567" [] []
    ∧ gatedRoute none (some "sekret")
        (patchItemFinal "0123456789abcdef01234567" []) []
      = { status := 401, storeCalls := 0, store := [] } :=
  ⟨(api_key_gate (some "sekret") (some "sekret")).2.2 "sekret" rfl (by decide) rfl
      (patchItemFinal "0123456789abcdef01234567" []) [],
   (api_key_gate none (some "sekret")).1 (Or.inl rfl)
      (patchItemFinal "0123456789abcdef01234567" []) []⟩

/-- C5 counterexample: a request whose x-api-key header is present with
the empty value is answered 401, not the 403 the claim requires for a
present header different from the secret, because the middleware tests
presence by truthiness. -/
theorem api_key_gate_counterexample :
    gatedRoute (some "") (some "sekret")
        (patchItemFinal "0123456789abcdef01234567" []) []
      = { status := 401, storeCalls := 0, store := [] }
    ∧ (401 : ℕ) ≠ 403 := by
  refine ⟨by decide, by decide⟩

/-- C7 (amended).  Handlers that wrap their store access in try/catch —
every handler of app.js, part_000, part_001, part_003 and the first
part_002 revision, plus GET /api/products of the final revision — answer
a store failure with 500 and the generic body {error:"Database error"};
but the final revision's remaining handlers have no try/catch, so a
store failure there escapes the async handler unhandled instead of
producing any response. -/
theorem store_error_handling :
    (∀ e, listProductsTry (Except.error e)
        = RouteResult.resp 500 (some "Database error"))
    ∧ (∀ e, getItemsFinalRoute (Except.error e) = RouteResult.unhandled)
    ∧ (∀ id e, isValidObjectId id = true →
        getProductByIdFinalRoute id (Except.error e) = RouteResult.unhandled) := by
  refine ⟨fun e => rfl, fun e => rfl, fun id e hid => ?_⟩
  simp [getProductByIdFinalRoute, hid]

/-- C7 witness: a concrete failing store read is answered 500 with the
generic message by the try/catch listing handler, and escapes unhandled
from the final revision's GET /api/items and GET /api/products/:id. -/
theorem store_error_handling_witness :
    listProductsTry (Except.error ()) = RouteResult.resp 500 (some "Database error")
    ∧ getItemsFinalRoute (Except.error ()) = RouteResult.unhandled
    ∧ getProductByIdFinalRoute "0123456789abcdef01234567" (Except.error ())
        = RouteResult.unhandled :=
  ⟨store_error_handling.1 (), store_error_handling.2.1 (),
   store_error_handling.2.2 "0123456789abcdef01234567" () (by decide)⟩

/-- C7 counterexample: in the final revision (cited by the claim, lines
506-525) GET /api/items has no try/catch, so a store error is not
answered 500 with a generic message — it escapes the handler boundary. -/
theorem store_error_propagates_counterexample :
    getItemsFinalRoute (Except.error ()) = RouteResult.unhandled
    ∧ RouteResult.unhandled ≠ RouteResult.resp 500 (some "Database error") := by
  refine ⟨rfl, by decide⟩

/-- Setting a field then reading it yields the written value. -/
theorem getField_setField_self (fs : List (String × JsValue)) (k : String) (v : JsValue) :
    getField (setField fs k v) k = some v := by
  induction fs with
  | nil => simp [setField, getField]
  | cons kv rest ih => by_cases h : kv.1 = k <;> simp [setField, getField, h, ih]

/-- Setting a field leaves every other field unchanged. -/
theorem getField_setField_ne (fs : List (String × JsValue)) (k : String) (v : JsValue)
    (k' : String) (h : k' ≠ k) :
    getField (setField fs k v) k' = getField fs k' := by
  have h2 : ¬ k = k' := fun hk => h hk.symm
  induction fs with
  | nil => simp [setField, getField, h2]
  | cons kv rest ih => by_cases hh : kv.1 = k <;> simp [setField, getField, hh, ih, h2]

/-- A $set document not naming a field leaves it unchanged. -/
theorem getField_setFields_not_mem (updates : List (String × JsValue))
    (fs : List (String × JsValue)) (k : String) (h : k ∉ updates.map Prod.fst) :
    getField (setFields fs updates) k = getField fs k := by
  induction updates generalizing fs with
  | nil => rfl
  | cons kv rest ih =>
      rw [List.map_cons, List.mem_cons] at h
      push_neg at h
      rw [show setFields fs (kv :: rest) = setFields (setField fs kv.1 kv.2) rest from rfl]
      rw [ih _ h.2]
      exact getField_setField_ne fs kv.1 kv.2 k h.1

/-- Every field named by a duplicate-free $set document reads back as the
written value. -/
theorem getField_setFields_mem (updates : List (String × JsValue)) (k : String)
    (v : JsValue) (hnd : (updates.map Prod.fst).Nodup) (hmem : (k, v) ∈ updates)
    (fs : List (String × JsValue)) :
    getField (setFields fs updates) k = some v := by
  induction updates generalizing fs with
  | nil => cases hmem
  | cons kv rest ih =>
      rw [List.map_cons, List.nodup_cons] at hnd
      rcases List.mem_cons.mp hmem with heq | hmem2
      · cases heq
        rw [show setFields fs ((k, v) :: rest) = setFields (setField fs k v) rest from rfl]
        rw [getField_setFields_not_mem rest (setField fs k v) k hnd.1]
        exact getField_setField_self fs k v
      · exact ih hnd.2 hmem2 (setField fs kv.1 kv.2)

/-- C10.  In the API-key-gated revision, PATCH /api/items/:id with a
valid identifier matching a record answers 200 and writes the entire
request body verbatim: the stored record is the old record with exactly
the body's fields $set onto it — every field the caller supplies, of any
name and any type, reads back as the supplied value — with no shape or
type validation, and an empty body is not rejected (it yields 200 and an
unchanged store). -/
theorem patch_applies_body_verbatim (id : String) (body : List (String × JsValue))
    (store : List Item) (it : Item)
    (hval : isValidObjectId id = true)
    (hfind : store.find? (fun x => x.id = id) = some it) :
    (patchItemFinal id body store).status = 200
    ∧ (patchItemFinal id body store).store
        = store.map (fun x =>
            if x.id = id then { x with fields := setFields x.fields body } else x)
    ∧ (body = [] → patchItemFinal id body store
        = { status := 200, storeCalls := 1, store := store })
    ∧ ((body.map Prod.fst).Nodup → ∀ k v, (k, v) ∈ body →
        ∀ y ∈ (patchItemFinal id body store).store, y.id = id →
          getField y.fields k = some v) := by
  have hres : patchItemFinal id body store
      = { status := 200, storeCalls := 1,
          store := store.map (fun x =>
            if x.id = id then { x with fields := setFields x.fields body } else x) } := by
    simp [patchItemFinal, hval, hfind]
  refine ⟨by simp [hres], by simp [hres], fun hb => ?_, fun hnd k v hkv y hy hyid => ?_⟩
  · subst hb
    rw [hres]
    simp [setFields]
  · rw [hres] at hy
    simp only [List.mem_map] at hy
    rcases hy with ⟨x, hx, rfl⟩
    by_cases hxid : x.id = id
    · simp only [hxid, if_pos]
      exact getField_setFields_mem body k v hnd hkv x.fields
    · rw [if_neg hxid] at hyid
      exact absurd hyid hxid

/-- C10 witness: patching the stored item `{name:"x"}` with the body
`{age:5, weird:null}` — fields outside the item shape, of mixed types —
writes both fields verbatim onto the stored record. -/
theorem patch_applies_body_verbatim_witness :
    getField [("name", JsValue.str "x"), ("age", JsValue.num (JsNum.fin 5)),
              ("weird", JsValue.null)] "weird" = some JsValue.null :=
  (patch_applies_body_verbatim "0123456789abcdef01234567"
      [("age", JsValue.num (JsNum.fin 5)), ("weird", JsValue.null)]
      [{ id := "0123456789abcdef01234567", fields := [("name", JsValue.str "x")] }]
      { id := "0123456789abcdef01234567", fields := [("name", JsValue.str "x")] }
      (by decide) (by decide)).2.2.2 (by decide) "weird" JsValue.null (by decide)
    { id := "0123456789abcdef01234567"
      fields := [("name", JsValue.str "x"), ("age", JsValue.num (JsNum.fin 5)),
                 ("weird", JsValue.null)] }
    (by decide) (by decide)

/-!
## PUT /api/products/:id — update validation (src/unnamed/part_000 lines
158-209 with per-field checks; src/unnamed/part_002 lines 144-166 with
only the identifier check and a verbatim $set)
-/

/-- The updateData document assembled by the part_000 PUT handler. -/
structure UpdateData where
  name : Option String
  category : Option String
  price : Option JsNum
deriving DecidableEq, Repr

/-- `const updateData = {}; if (name) updateData.name = name.trim(); ...`
of part_000 — only reached once the per-field guards have passed, so a
truthy name/category is a string and a defined price is a number here. -/
def part0UpdateData (b : Body) : UpdateData :=
  { name := match b.name with
      | JsValue.str s => if s = "" then none else some (trimStr s)
      | _ => none
    category := match b.category with
      | JsValue.str s => if s = "" then none else some (trimStr s)
      | _ => none
    price := match b.price with
      | JsValue.num x => some x
      | _ => none }

/-- Apply a $set of the updateData to a stored product: supplied fields
overwrite, unsupplied fields stay. -/
def applyUpdate (u : UpdateData) (p : Product) : Product :=
  { p with
    name := match u.name with
      | some n => n
      | none => p.name
    category := match u.category with
      | some c => c
      | none => p.category
    price := match u.price with
      | some x => x
      | none => p.price }

/-- PUT /api/products/:id of src/unnamed/part_000: identifier check,
at-least-one-field check, then per-field type/range checks in source
order, and only then updateOne with the assembled $set document. -/
def putProductPart0 (id : String) (b : Body) (store : List Product) : SingleOut :=
  if !isValidObjectId id then { status := 400, storeCalls := 0, store := store }
  else if !truthy b.name && decide (b.price = JsValue.undef) && !truthy b.category then
    { status := 400, storeCalls := 0, store := store }
  else if truthy b.name && !isString b.name then
    { status := 400, storeCalls := 0, store := store }
  else if truthy b.category && !isString b.category then
    { status := 400, storeCalls := 0, store := store }
  else if decide (b.price ≠ JsValue.undef) &&
      !(match b.price with
        | JsValue.num x => !jsNumLt x (JsNum.fin 0)
        | _ => false) then
    { status := 400, storeCalls := 0, store := store }
  else
    match store.find? (fun p => p.id = id) with
    | none => { status := 404, storeCalls := 1, store := store }
    | some _ =>
        { status := 200, storeCalls := 1,
          store := store.map (fun p =>
            if p.id = id then applyUpdate (part0UpdateData b) p else p) }

/-- The part_000 update-validity condition: valid identifier, at least
one field supplied (by truthiness), every truthy string field a string,
and a defined price a number that is not < 0. -/
def part0PutOk (id : String) (b : Body) : Prop :=
  isValidObjectId id = true
  ∧ (truthy b.name = true ∨ b.price ≠ JsValue.undef ∨ truthy b.category = true)
  ∧ (truthy b.name = true → isString b.name = true)
  ∧ (truthy b.category = true → isString b.category = true)
  ∧ (b.price ≠ JsValue.undef → ∃ x, b.price = JsValue.num x ∧ jsNumLt x (JsNum.fin 0) = false)

/-- When every guard of the part_000 PUT evaluates false the validity
condition holds. -/
theorem part0PutOk_of_guards (id : String) (b : Body)
    (h0 : isValidObjectId id = true)
    (h1 : (!truthy b.name && decide (b.price = JsValue.undef) && !truthy b.category) = false)
    (h2 : (truthy b.name && !isString b.name) = false)
    (h3 : (truthy b.category && !isString b.category) = false)
    (h4 : (decide (b.price ≠ JsValue.undef) &&
        !(match b.price with
          | JsValue.num x => !jsNumLt x (JsNum.fin 0)
          | _ => false)) = false) :
    part0PutOk id b := by
  refine ⟨h0, ?_, ?_, ?_, ?_⟩
  · by_cases htn : truthy b.name = true
    · exact Or.inl htn
    · by_cases hpu : b.price = JsValue.undef
      · by_cases htc : truthy b.category = true
        · exact Or.inr (Or.inr htc)
        · rw [Bool.not_eq_true] at htn htc
          rw [htn, htc, hpu] at h1
          simp at h1
      · exact Or.inr (Or.inl hpu)
  · intro hn
    rw [hn] at h2
    simpa using h2
  · intro hc
    rw [hc] at h3
    simpa using h3
  · intro hp
    cases hb : b.price with
    | num x =>
        refine ⟨x, rfl, ?_⟩
        rw [hb] at h4
        by_cases hlt : jsNumLt x (JsNum.fin 0) = true
        · simp [hlt] at h4
        · rwa [Bool.not_eq_true] at hlt
    | undef => exact absurd hb hp
    | null =>
        rw [hb] at h4
        simp at h4
    | bool bb =>
        rw [hb] at h4
        simp at h4
    | str s =>
        rw [hb] at h4
        simp at h4

/-- A part_000 update that fails any of its validation checks answers 400
with zero store operations and the store unchanged. -/
theorem putProductPart0_400_of_not_ok (id : String) (b : Body) (store : List Product)
    (hno : ¬ part0PutOk id b) :
    putProductPart0 id b store = { status := 400, storeCalls := 0, store := store } := by
  unfold putProductPart0
  split_ifs with h0 h1 h2 h3 h4
  · rfl
  · rfl
  · rfl
  · rfl
  · rfl
  · exfalso
    apply hno
    simp only [Bool.not_eq_true] at h0 h1 h2 h3 h4
    exact part0PutOk_of_guards id b (by simpa using h0) h1 h2 h3 h4

/-- The driver serializes an undefined body field as null when it appears
in a $set document (ignoreUndefined is not set). -/
def undefToNull : JsValue → JsValue
  | JsValue.undef => JsValue.null
  | v => v

/-- The `$set: { name, price, category }` document of the part_002 PUT,
with the driver's undefined-to-null serialization applied. -/
def prodSetDoc (b : Body) : List (String × JsValue) :=
  [("name", undefToNull b.name), ("price", undefToNull b.price),
   ("category", undefToNull b.category)]

/-- PUT /api/products/:id of src/unnamed/part_002 (first revision, lines
144-166, same shape in part_001 lines 125-147): only the identifier
check guards the store; the body's name, price and category are $set
verbatim, whatever they are. -/
def putProductPart2 (id : String) (b : Body) (store : List Item) : ItemOut :=
  if !isValidObjectId id then { status := 400, storeCalls := 0, store := store }
  else
    match store.find? (fun it => it.id = id) with
    | none => { status := 404, storeCalls := 1, store := store }
    | some _ =>
        { status := 200, storeCalls := 1,
          store := store.map (fun it =>
            if it.id = id then { it with fields := setFields it.fields (prodSetDoc b) }
            else it) }

/-- C2.  On every modelled create/update endpoint, a validation failure
answers 400 before the store is touched — no store call is made and the
stored state is unchanged — and conversely a request that does reach
insertOne/updateOne has passed all of that endpoint's validation checks
(which, for the part_002 PUT and the final-revision PATCH, are only the
identifier check). -/
theorem validation_short_circuit (id : String) (b : Body) (now : ℕ)
    (store : List Product) (istore : List Item) (body : List (String × JsValue)) :
    (¬ specCreateOk b → ∃ msg, postProductApp b now = PostOutcome.badRequest msg)
    ∧ ((truthy b.name = false ∨ b.price = JsValue.undef ∨ truthy b.category = false) →
        ∃ msg, postProductPart1 b now = PostOutcomeLoose.badRequest msg)
    ∧ (¬ part0PutOk id b →
        putProductPart0 id b store = { status := 400, storeCalls := 0, store := store })
    ∧ ((putProductPart0 id b store).storeCalls ≠ 0 → part0PutOk id b)
    ∧ (isValidObjectId id = false →
        putProductPart2 id b istore = { status := 400, storeCalls := 0, store := istore }
      ∧ patchItemFinal id body istore = { status := 400, storeCalls := 0, store := istore })
    ∧ ((putProductPart2 id b istore).storeCalls ≠ 0 → isValidObjectId id = true) := by
  refine ⟨?_, ?_, fun hno => putProductPart0_400_of_not_ok id b store hno, ?_, ?_, ?_⟩
  · intro hno
    cases h : postProductApp b now with
    | badRequest m => exact ⟨m, rfl⟩
    | created d => exact absurd ((postProductApp_created_iff b now).mp ⟨d, h⟩) hno
  · intro h
    rcases h with h | h | h <;> simp [postProductPart1, h]
  · intro hcalls
    by_contra hno
    rw [putProductPart0_400_of_not_ok id b store hno] at hcalls
    simp at hcalls
  · intro hinv
    constructor
    · simp [putProductPart2, hinv]
    · simp [patchItemFinal, hinv]
  · intro hcalls
    by_contra hno
    rw [Bool.not_eq_true] at hno
    rw [show putProductPart2 id b istore
        = { status := 400, storeCalls := 0, store := istore } from by
      simp [putProductPart2, hno]] at hcalls
    simp at hcalls

/-- C2 witness: a part_000 update with an invalid identifier and a
whole-body-missing part_001 create are both answered 400 with the store
untouched. -/
theorem validation_short_circuit_witness :
    putProductPart0 "abc"
        { name := JsValue.undef, price := JsValue.undef, category := JsValue.undef } []
      = { status := 400, storeCalls := 0, store := [] }
    ∧ ∃ msg, postProductPart1
        { name := JsValue.undef, price := JsValue.undef, category := JsValue.undef } 0
      = PostOutcomeLoose.badRequest msg :=
  ⟨(validation_short_circuit "abc"
      { name := JsValue.undef, price := JsValue.undef, category := JsValue.undef }
      0 [] [] []).2.2.1 (fun h => absurd h.1 (by decide)),
   (validation_short_circuit "abc"
      { name := JsValue.undef, price := JsValue.undef, category := JsValue.undef }
      0 [] [] []).2.1 (Or.inl (by decide))⟩
